import Mathlib

/-!
Verification development for the `whoami` identity library.

The definitions below are shallow embeddings of the library's Rust source:

* `src/api.rs` — the locale-string parser behind the public `langs()`;
* `src/fallible.rs` — the fallible query layer (`hostname`);
* `src/lib.rs` — the descriptive enums (`Region`, `Language`, `Platform`,
  `Arch`, `Width`), their `Display` renderings, the `get_region_helper`
  parser chain, `Arch::width`, and the convenience layer (`hostname`,
  `distro`, `langs`);
* `src/unix.rs` — the Unix provider (`getpwuid`, `fancy_fallback`,
  `realname`, `username`, `distro`).

OS-sourced data (passwd fields, the `/etc/os-release` file content, the raw
locale string, the platform hostname) is passed to the embedded functions as
explicit parameters.  Machine integers are modelled as `Nat`; fallible Rust
code returns `Except`/`Option`; a Rust `panic!`/`expect` outcome is made
explicit with the `PanicOr` type.
-/

set_option maxHeartbeats 1600000
set_option maxRecDepth 8192

namespace Whoami

/-! ## String helpers (Rust `str` primitives used by the library) -/

/-- Accumulator loop for `splitChar`: walks the character list, cutting at
each occurrence of `sep`.  A separator at the end yields a trailing empty
piece, exactly like Rust `str::split`. -/
def splitCharAux (sep : Char) : List Char → List Char → List (List Char)
  | [], acc => [acc.reverse]
  | c :: rest, acc =>
    if c = sep then acc.reverse :: splitCharAux sep rest []
    else splitCharAux sep rest (c :: acc)

/-- Rust `str::split(sep)` for a one-character separator: `n` separators
produce `n + 1` pieces; splitting the empty string yields `[""]`. -/
def splitChar (sep : Char) (s : String) : List String :=
  (splitCharAux sep s.data []).map String.mk

/-- Contiguous-substring test on character lists (used to model Rust
`str::contains` with a string pattern). -/
def hasInfix (pat : List Char) : List Char → Bool
  | [] => pat.isEmpty
  | c :: rest => pat.isPrefixOf (c :: rest) || hasInfix pat rest

/-- Rust `str::contains(pat)` (substring containment). -/
def strContains (s pat : String) : Bool :=
  hasInfix pat.data s.data

/-- Rust `s.replace(|x| ['_', '-'].contains(&x), "/")` from `src/api.rs`:
every underscore or dash becomes a forward slash (the replacement string is a
single character, so the replacement is a per-character map). -/
def replaceSep (s : String) : String :=
  ⟨s.data.map fun c => if ['_', '-'].contains c then '/' else c⟩

/-- Rust `s.split_terminator('.').next()` from `src/api.rs`:
`split_terminator` differs from `split` only in dropping a final empty piece,
so its first element is the first `split` piece except on the empty string,
where the iterator is empty. -/
def split_terminator_first (s : String) : Option String :=
  if s.data.isEmpty then none else (splitChar '.' s).head?

/-- Rust `str::trim_matches(pat)` for a one-character pattern: strip every
leading and trailing occurrence of `pat`. -/
def trim_matches (pat : Char) (s : String) : String :=
  ⟨((s.data.dropWhile (· = pat)).reverse.dropWhile (· = pat)).reverse⟩

/-- Rust `str::make_ascii_lowercase` / `String::to_lowercase` on the ASCII
strings this library handles: per-character ASCII lowercasing.  Lean's
`Char.toLower` adds 32 to a code point in `[65, 90]` and is the identity
otherwise, which is exactly `u8::make_ascii_lowercase`. -/
def ascii_lowercase (s : String) : String :=
  ⟨s.data.map Char.toLower⟩

/-- True when the string has no ASCII uppercase letter (`A`–`Z`). -/
def noAsciiUppercase (s : String) : Bool :=
  s.data.all fun c => !c.isUpper

/-! ## Error model

`std::io::Error` values created by the library carry an `ErrorKind` and a
message; nothing else about them is observed. -/

/-- The `std::io::ErrorKind` values the library constructs. -/
inductive ErrorKind
  | invalidData
  | notFound
  | other
deriving DecidableEq

/-- Model of `std::io::Error` as constructed by `Error::new(kind, msg)`. -/
structure IoError where
  kind : ErrorKind
  msg : String
deriving DecidableEq

/-- Outcome of Rust code that may `panic!` (via `expect`/`unwrap`) instead of
returning: either a panic with its message, or a normal return value. -/
inductive PanicOr (A : Type)
  | panicked (msg : String)
  | returned (val : A)

/-! ## `Region` (src/lib.rs lines 151–1157): ISO 3166-1 alpha-2 region codes

The enum has the `Any` wildcard, a numeric `Custom` escape (`u32` in the
source, modelled as `Nat`; only table lookup is performed on it), and one
variant per alpha-2 code, in source order. -/


inductive Region
  | Any
  | Custom (code : Nat)
  | Af
  | Al
  | Dz
  | As
  | Ad
  | Ao
  | Ai
  | Aq
  | Ag
  | Ar
  | Am
  | Aw
  | Au
  | At
  | Az
  | Bs
  | Bh
  | Bd
  | Bb
  | By
  | Be
  | Bz
  | Bj
  | Bm
  | Bt
  | Bo
  | Bq
  | Ba
  | Bw
  | Bv
  | Br
  | Io
  | Bn
  | Bg
  | Bf
  | Bi
  | Cv
  | Kh
  | Cm
  | Ca
  | Ky
  | Cf
  | Td
  | Cl
  | Cn
  | Cx
  | Cc
  | Co
  | Km
  | Cd
  | Cg
  | Ck
  | Cr
  | Hr
  | Cu
  | Cw
  | Cy
  | Cz
  | Ci
  | Dk
  | Dj
  | Dm
  | Do
  | Ec
  | Eg
  | Sv
  | Gq
  | Er
  | Ee
  | Sz
  | Et
  | Fk
  | Fo
  | Fj
  | Fi
  | Fr
  | Gf
  | Pf
  | Tf
  | Ga
  | Gm
  | Ge
  | De
  | Gh
  | Gi
  | Gr
  | Gl
  | Gd
  | Gp
  | Gu
  | Gt
  | Gg
  | Gn
  | Gw
  | Gy
  | Ht
  | Hm
  | Va
  | Hn
  | Hk
  | Hu
  | Is
  | In
  | Id
  | Ir
  | Iq
  | Ie
  | Im
  | Il
  | It
  | Jm
  | Jp
  | Je
  | Jo
  | Kz
  | Ke
  | Ki
  | Kp
  | Kr
  | Kw
  | Kg
  | La
  | Lv
  | Lb
  | Ls
  | Lr
  | Ly
  | Li
  | Lt
  | Lu
  | Mo
  | Mg
  | Mw
  | My
  | Mv
  | Ml
  | Mt
  | Mh
  | Mq
  | Mr
  | Mu
  | Yt
  | Mx
  | Fm
  | Md
  | Mc
  | Mn
  | Me
  | Ms
  | Ma
  | Mz
  | Mm
  | Na
  | Nr
  | Np
  | Nl
  | Nc
  | Nz
  | Ni
  | Ne
  | Ng
  | Nu
  | Nf
  | Mp
  | No
  | Om
  | Pk
  | Pw
  | Ps
  | Pa
  | Pg
  | Py
  | Pe
  | Ph
  | Pn
  | Pl
  | Pt
  | Pr
  | Qa
  | Mk
  | Ro
  | Ru
  | Rw
  | Re
  | Bl
  | Sh
  | Kn
  | Lc
  | Mf
  | Pm
  | Vc
  | Ws
  | Sm
  | St
  | Sa
  | Sn
  | Rs
  | Sc
  | Sl
  | Sg
  | Sx
  | Sk
  | Si
  | Sb
  | So
  | Za
  | Gs
  | Ss
  | Es
  | Lk
  | Sd
  | Sr
  | Sj
  | Se
  | Ch
  | Sy
  | Tw
  | Tj
  | Tz
  | Th
  | Tl
  | Tg
  | Tk
  | To
  | Tt
  | Tn
  | Tr
  | Tm
  | Tc
  | Tv
  | Ug
  | Ua
  | Ae
  | Gb
  | Um
  | Us
  | Uy
  | Uz
  | Vu
  | Ve
  | Vn
  | Vg
  | Vi
  | Wf
  | Eh
  | Ye
  | Zm
  | Zw
  | Ax

/-- A numeric tag distinguishing `Region` constructors (payloads ignored);
used only to define Boolean equality, since deriving `DecidableEq` for a
251-constructor inductive is impractical here. -/
def Region.tag : Region → Nat
  | .Any => 0
  | .Custom _ => 1
  | .Af => 2
  | .Al => 3
  | .Dz => 4
  | .As => 5
  | .Ad => 6
  | .Ao => 7
  | .Ai => 8
  | .Aq => 9
  | .Ag => 10
  | .Ar => 11
  | .Am => 12
  | .Aw => 13
  | .Au => 14
  | .At => 15
  | .Az => 16
  | .Bs => 17
  | .Bh => 18
  | .Bd => 19
  | .Bb => 20
  | .By => 21
  | .Be => 22
  | .Bz => 23
  | .Bj => 24
  | .Bm => 25
  | .Bt => 26
  | .Bo => 27
  | .Bq => 28
  | .Ba => 29
  | .Bw => 30
  | .Bv => 31
  | .Br => 32
  | .Io => 33
  | .Bn => 34
  | .Bg => 35
  | .Bf => 36
  | .Bi => 37
  | .Cv => 38
  | .Kh => 39
  | .Cm => 40
  | .Ca => 41
  | .Ky => 42
  | .Cf => 43
  | .Td => 44
  | .Cl => 45
  | .Cn => 46
  | .Cx => 47
  | .Cc => 48
  | .Co => 49
  | .Km => 50
  | .Cd => 51
  | .Cg => 52
  | .Ck => 53
  | .Cr => 54
  | .Hr => 55
  | .Cu => 56
  | .Cw => 57
  | .Cy => 58
  | .Cz => 59
  | .Ci => 60
  | .Dk => 61
  | .Dj => 62
  | .Dm => 63
  | .Do => 64
  | .Ec => 65
  | .Eg => 66
  | .Sv => 67
  | .Gq => 68
  | .Er => 69
  | .Ee => 70
  | .Sz => 71
  | .Et => 72
  | .Fk => 73
  | .Fo => 74
  | .Fj => 75
  | .Fi => 76
  | .Fr => 77
  | .Gf => 78
  | .Pf => 79
  | .Tf => 80
  | .Ga => 81
  | .Gm => 82
  | .Ge => 83
  | .De => 84
  | .Gh => 85
  | .Gi => 86
  | .Gr => 87
  | .Gl => 88
  | .Gd => 89
  | .Gp => 90
  | .Gu => 91
  | .Gt => 92
  | .Gg => 93
  | .Gn => 94
  | .Gw => 95
  | .Gy => 96
  | .Ht => 97
  | .Hm => 98
  | .Va => 99
  | .Hn => 100
  | .Hk => 101
  | .Hu => 102
  | .Is => 103
  | .In => 104
  | .Id => 105
  | .Ir => 106
  | .Iq => 107
  | .Ie => 108
  | .Im => 109
  | .Il => 110
  | .It => 111
  | .Jm => 112
  | .Jp => 113
  | .Je => 114
  | .Jo => 115
  | .Kz => 116
  | .Ke => 117
  | .Ki => 118
  | .Kp => 119
  | .Kr => 120
  | .Kw => 121
  | .Kg => 122
  | .La => 123
  | .Lv => 124
  | .Lb => 125
  | .Ls => 126
  | .Lr => 127
  | .Ly => 128
  | .Li => 129
  | .Lt => 130
  | .Lu => 131
  | .Mo => 132
  | .Mg => 133
  | .Mw => 134
  | .My => 135
  | .Mv => 136
  | .Ml => 137
  | .Mt => 138
  | .Mh => 139
  | .Mq => 140
  | .Mr => 141
  | .Mu => 142
  | .Yt => 143
  | .Mx => 144
  | .Fm => 145
  | .Md => 146
  | .Mc => 147
  | .Mn => 148
  | .Me => 149
  | .Ms => 150
  | .Ma => 151
  | .Mz => 152
  | .Mm => 153
  | .Na => 154
  | .Nr => 155
  | .Np => 156
  | .Nl => 157
  | .Nc => 158
  | .Nz => 159
  | .Ni => 160
  | .Ne => 161
  | .Ng => 162
  | .Nu => 163
  | .Nf => 164
  | .Mp => 165
  | .No => 166
  | .Om => 167
  | .Pk => 168
  | .Pw => 169
  | .Ps => 170
  | .Pa => 171
  | .Pg => 172
  | .Py => 173
  | .Pe => 174
  | .Ph => 175
  | .Pn => 176
  | .Pl => 177
  | .Pt => 178
  | .Pr => 179
  | .Qa => 180
  | .Mk => 181
  | .Ro => 182
  | .Ru => 183
  | .Rw => 184
  | .Re => 185
  | .Bl => 186
  | .Sh => 187
  | .Kn => 188
  | .Lc => 189
  | .Mf => 190
  | .Pm => 191
  | .Vc => 192
  | .Ws => 193
  | .Sm => 194
  | .St => 195
  | .Sa => 196
  | .Sn => 197
  | .Rs => 198
  | .Sc => 199
  | .Sl => 200
  | .Sg => 201
  | .Sx => 202
  | .Sk => 203
  | .Si => 204
  | .Sb => 205
  | .So => 206
  | .Za => 207
  | .Gs => 208
  | .Ss => 209
  | .Es => 210
  | .Lk => 211
  | .Sd => 212
  | .Sr => 213
  | .Sj => 214
  | .Se => 215
  | .Ch => 216
  | .Sy => 217
  | .Tw => 218
  | .Tj => 219
  | .Tz => 220
  | .Th => 221
  | .Tl => 222
  | .Tg => 223
  | .Tk => 224
  | .To => 225
  | .Tt => 226
  | .Tn => 227
  | .Tr => 228
  | .Tm => 229
  | .Tc => 230
  | .Tv => 231
  | .Ug => 232
  | .Ua => 233
  | .Ae => 234
  | .Gb => 235
  | .Um => 236
  | .Us => 237
  | .Uy => 238
  | .Uz => 239
  | .Vu => 240
  | .Ve => 241
  | .Vn => 242
  | .Vg => 243
  | .Vi => 244
  | .Wf => 245
  | .Eh => 246
  | .Ye => 247
  | .Zm => 248
  | .Zw => 249
  | .Ax => 250

/-- Boolean equality on `Region`: `Custom` compares payloads, all other
constructors are payload-free and compare by tag. -/
def Region.beq (a b : Region) : Bool :=
  match a, b with
  | .Custom x, .Custom y => x == y
  | a, b => a.tag == b.tag

instance : BEq Region := ⟨Region.beq⟩

/-- The numeric-code table inside `Display for Region`'s `Custom` arm
(`src/lib.rs` lines 1166–1421), in source order: ISO 3166-1 numeric code to
alpha-2 string; any other number renders as the sentinel `"**"`. -/
def customRegionTable : List (Nat × String) := [
  (4, "AF"),
  (8, "AL"),
  (12, "DZ"),
  (16, "AS"),
  (20, "AD"),
  (24, "AO"),
  (660, "AI"),
  (10, "AQ"),
  (28, "AG"),
  (32, "AR"),
  (51, "AM"),
  (533, "AW"),
  (36, "AU"),
  (40, "AT"),
  (31, "AZ"),
  (44, "BS"),
  (48, "BH"),
  (50, "BD"),
  (52, "BB"),
  (112, "BY"),
  (56, "BE"),
  (84, "BZ"),
  (204, "BJ"),
  (60, "BM"),
  (64, "BT"),
  (68, "BO"),
  (535, "BQ"),
  (70, "BA"),
  (72, "BW"),
  (74, "BV"),
  (76, "BR"),
  (86, "IO"),
  (96, "BN"),
  (100, "BG"),
  (854, "BF"),
  (108, "BI"),
  (132, "CV"),
  (116, "KH"),
  (120, "CM"),
  (124, "CA"),
  (136, "KY"),
  (140, "CF"),
  (148, "TD"),
  (152, "CL"),
  (156, "CN"),
  (162, "CX"),
  (166, "CC"),
  (170, "CO"),
  (174, "KM"),
  (180, "CD"),
  (178, "CG"),
  (184, "CK"),
  (188, "CR"),
  (191, "HR"),
  (192, "CU"),
  (531, "CW"),
  (196, "CY"),
  (203, "CZ"),
  (384, "CI"),
  (208, "DK"),
  (262, "DJ"),
  (212, "DM"),
  (214, "DO"),
  (218, "EC"),
  (818, "EG"),
  (222, "SV"),
  (226, "GQ"),
  (232, "ER"),
  (233, "EE"),
  (748, "SZ"),
  (231, "ET"),
  (238, "FK"),
  (234, "FO"),
  (242, "FJ"),
  (246, "FI"),
  (250, "FR"),
  (254, "GF"),
  (258, "PF"),
  (260, "TF"),
  (266, "GA"),
  (270, "GM"),
  (268, "GE"),
  (276, "DE"),
  (288, "GH"),
  (292, "GI"),
  (300, "GR"),
  (304, "GL"),
  (308, "GD"),
  (312, "GP"),
  (316, "GU"),
  (320, "GT"),
  (831, "GG"),
  (324, "GN"),
  (624, "GW"),
  (328, "GY"),
  (332, "HT"),
  (334, "HM"),
  (336, "VA"),
  (340, "HN"),
  (344, "HK"),
  (348, "HU"),
  (352, "IS"),
  (356, "IN"),
  (360, "ID"),
  (364, "IR"),
  (368, "IQ"),
  (372, "IE"),
  (833, "IM"),
  (376, "IL"),
  (380, "IT"),
  (388, "JM"),
  (392, "JP"),
  (832, "JE"),
  (400, "JO"),
  (398, "KZ"),
  (404, "KE"),
  (296, "KI"),
  (408, "KP"),
  (410, "KR"),
  (414, "KW"),
  (417, "KG"),
  (418, "LA"),
  (428, "LV"),
  (422, "LB"),
  (426, "LS"),
  (430, "LR"),
  (434, "LY"),
  (438, "LI"),
  (440, "LT"),
  (442, "LU"),
  (446, "MO"),
  (450, "MG"),
  (454, "MW"),
  (458, "MY"),
  (462, "MV"),
  (466, "ML"),
  (470, "MT"),
  (584, "MH"),
  (474, "MQ"),
  (478, "MR"),
  (480, "MU"),
  (175, "YT"),
  (484, "MX"),
  (583, "FM"),
  (498, "MD"),
  (492, "MC"),
  (496, "MN"),
  (499, "ME"),
  (500, "MS"),
  (504, "MA"),
  (508, "MZ"),
  (104, "MM"),
  (516, "NA"),
  (520, "NR"),
  (524, "NP"),
  (528, "NL"),
  (540, "NC"),
  (554, "NZ"),
  (558, "NI"),
  (562, "NE"),
  (566, "NG"),
  (570, "NU"),
  (574, "NF"),
  (580, "MP"),
  (578, "NO"),
  (512, "OM"),
  (586, "PK"),
  (585, "PW"),
  (275, "PS"),
  (591, "PA"),
  (598, "PG"),
  (600, "PY"),
  (604, "PE"),
  (608, "PH"),
  (612, "PN"),
  (616, "PL"),
  (620, "PT"),
  (630, "PR"),
  (634, "QA"),
  (807, "MK"),
  (642, "RO"),
  (643, "RU"),
  (646, "RW"),
  (638, "RE"),
  (652, "BL"),
  (654, "SH"),
  (659, "KN"),
  (662, "LC"),
  (663, "MF"),
  (666, "PM"),
  (670, "VC"),
  (882, "WS"),
  (674, "SM"),
  (678, "ST"),
  (682, "SA"),
  (686, "SN"),
  (688, "RS"),
  (690, "SC"),
  (694, "SL"),
  (702, "SG"),
  (534, "SX"),
  (703, "SK"),
  (705, "SI"),
  (90, "SB"),
  (706, "SO"),
  (710, "ZA"),
  (239, "GS"),
  (728, "SS"),
  (724, "ES"),
  (144, "LK"),
  (729, "SD"),
  (740, "SR"),
  (744, "SJ"),
  (752, "SE"),
  (756, "CH"),
  (760, "SY"),
  (158, "TW"),
  (762, "TJ"),
  (834, "TZ"),
  (764, "TH"),
  (626, "TL"),
  (768, "TG"),
  (772, "TK"),
  (776, "TO"),
  (780, "TT"),
  (788, "TN"),
  (792, "TR"),
  (795, "TM"),
  (796, "TC"),
  (798, "TV"),
  (800, "UG"),
  (804, "UA"),
  (784, "AE"),
  (826, "GB"),
  (581, "UM"),
  (840, "US"),
  (858, "UY"),
  (860, "UZ"),
  (548, "VU"),
  (862, "VE"),
  (704, "VN"),
  (92, "VG"),
  (850, "VI"),
  (876, "WF"),
  (732, "EH"),
  (887, "YE"),
  (894, "ZM"),
  (716, "ZW"),
  (248, "AX")
]

/-- `Display for Region` (`src/lib.rs` lines 1159–1677): `Any` renders as
`"**"`, `Custom` looks its code up in the numeric table (first match wins)
falling back to the sentinel `"**"`, and every named variant renders its
two-letter uppercase code. -/
def regionDisplay : Region → String
  | .Any => "**"
  | .Custom value => ((customRegionTable.lookup value).getD "**")
  | .Af => "AF"
  | .Al => "AL"
  | .Dz => "DZ"
  | .As => "AS"
  | .Ad => "AD"
  | .Ao => "AO"
  | .Ai => "AI"
  | .Aq => "AQ"
  | .Ag => "AG"
  | .Ar => "AR"
  | .Am => "AM"
  | .Aw => "AW"
  | .Au => "AU"
  | .At => "AT"
  | .Az => "AZ"
  | .Bs => "BS"
  | .Bh => "BH"
  | .Bd => "BD"
  | .Bb => "BB"
  | .By => "BY"
  | .Be => "BE"
  | .Bz => "BZ"
  | .Bj => "BJ"
  | .Bm => "BM"
  | .Bt => "BT"
  | .Bo => "BO"
  | .Bq => "BQ"
  | .Ba => "BA"
  | .Bw => "BW"
  | .Bv => "BV"
  | .Br => "BR"
  | .Io => "IO"
  | .Bn => "BN"
  | .Bg => "BG"
  | .Bf => "BF"
  | .Bi => "BI"
  | .Cv => "CV"
  | .Kh => "KH"
  | .Cm => "CM"
  | .Ca => "CA"
  | .Ky => "KY"
  | .Cf => "CF"
  | .Td => "TD"
  | .Cl => "CL"
  | .Cn => "CN"
  | .Cx => "CX"
  | .Cc => "CC"
  | .Co => "CO"
  | .Km => "KM"
  | .Cd => "CD"
  | .Cg => "CG"
  | .Ck => "CK"
  | .Cr => "CR"
  | .Hr => "HR"
  | .Cu => "CU"
  | .Cw => "CW"
  | .Cy => "CY"
  | .Cz => "CZ"
  | .Ci => "CI"
  | .Dk => "DK"
  | .Dj => "DJ"
  | .Dm => "DM"
  | .Do => "DO"
  | .Ec => "EC"
  | .Eg => "EG"
  | .Sv => "SV"
  | .Gq => "GQ"
  | .Er => "ER"
  | .Ee => "EE"
  | .Sz => "SZ"
  | .Et => "ET"
  | .Fk => "FK"
  | .Fo => "FO"
  | .Fj => "FJ"
  | .Fi => "FI"
  | .Fr => "FR"
  | .Gf => "GF"
  | .Pf => "PF"
  | .Tf => "TF"
  | .Ga => "GA"
  | .Gm => "GM"
  | .Ge => "GE"
  | .De => "DE"
  | .Gh => "GH"
  | .Gi => "GI"
  | .Gr => "GR"
  | .Gl => "GL"
  | .Gd => "GD"
  | .Gp => "GP"
  | .Gu => "GU"
  | .Gt => "GT"
  | .Gg => "GG"
  | .Gn => "GN"
  | .Gw => "GW"
  | .Gy => "GY"
  | .Ht => "HT"
  | .Hm => "HM"
  | .Va => "VA"
  | .Hn => "HN"
  | .Hk => "HK"
  | .Hu => "HU"
  | .Is => "IS"
  | .In => "IN"
  | .Id => "ID"
  | .Ir => "IR"
  | .Iq => "IQ"
  | .Ie => "IE"
  | .Im => "IM"
  | .Il => "IL"
  | .It => "IT"
  | .Jm => "JM"
  | .Jp => "JP"
  | .Je => "JE"
  | .Jo => "JO"
  | .Kz => "KZ"
  | .Ke => "KE"
  | .Ki => "KI"
  | .Kp => "KP"
  | .Kr => "KR"
  | .Kw => "KW"
  | .Kg => "KG"
  | .La => "LA"
  | .Lv => "LV"
  | .Lb => "LB"
  | .Ls => "LS"
  | .Lr => "LR"
  | .Ly => "LY"
  | .Li => "LI"
  | .Lt => "LT"
  | .Lu => "LU"
  | .Mo => "MO"
  | .Mg => "MG"
  | .Mw => "MW"
  | .My => "MY"
  | .Mv => "MV"
  | .Ml => "ML"
  | .Mt => "MT"
  | .Mh => "MH"
  | .Mq => "MQ"
  | .Mr => "MR"
  | .Mu => "MU"
  | .Yt => "YT"
  | .Mx => "MX"
  | .Fm => "FM"
  | .Md => "MD"
  | .Mc => "MC"
  | .Mn => "MN"
  | .Me => "ME"
  | .Ms => "MS"
  | .Ma => "MA"
  | .Mz => "MZ"
  | .Mm => "MM"
  | .Na => "NA"
  | .Nr => "NR"
  | .Np => "NP"
  | .Nl => "NL"
  | .Nc => "NC"
  | .Nz => "NZ"
  | .Ni => "NI"
  | .Ne => "NE"
  | .Ng => "NG"
  | .Nu => "NU"
  | .Nf => "NF"
  | .Mp => "MP"
  | .No => "NO"
  | .Om => "OM"
  | .Pk => "PK"
  | .Pw => "PW"
  | .Ps => "PS"
  | .Pa => "PA"
  | .Pg => "PG"
  | .Py => "PY"
  | .Pe => "PE"
  | .Ph => "PH"
  | .Pn => "PN"
  | .Pl => "PL"
  | .Pt => "PT"
  | .Pr => "PR"
  | .Qa => "QA"
  | .Mk => "MK"
  | .Ro => "RO"
  | .Ru => "RU"
  | .Rw => "RW"
  | .Re => "RE"
  | .Bl => "BL"
  | .Sh => "SH"
  | .Kn => "KN"
  | .Lc => "LC"
  | .Mf => "MF"
  | .Pm => "PM"
  | .Vc => "VC"
  | .Ws => "WS"
  | .Sm => "SM"
  | .St => "ST"
  | .Sa => "SA"
  | .Sn => "SN"
  | .Rs => "RS"
  | .Sc => "SC"
  | .Sl => "SL"
  | .Sg => "SG"
  | .Sx => "SX"
  | .Sk => "SK"
  | .Si => "SI"
  | .Sb => "SB"
  | .So => "SO"
  | .Za => "ZA"
  | .Gs => "GS"
  | .Ss => "SS"
  | .Es => "ES"
  | .Lk => "LK"
  | .Sd => "SD"
  | .Sr => "SR"
  | .Sj => "SJ"
  | .Se => "SE"
  | .Ch => "CH"
  | .Sy => "SY"
  | .Tw => "TW"
  | .Tj => "TJ"
  | .Tz => "TZ"
  | .Th => "TH"
  | .Tl => "TL"
  | .Tg => "TG"
  | .Tk => "TK"
  | .To => "TO"
  | .Tt => "TT"
  | .Tn => "TN"
  | .Tr => "TR"
  | .Tm => "TM"
  | .Tc => "TC"
  | .Tv => "TV"
  | .Ug => "UG"
  | .Ua => "UA"
  | .Ae => "AE"
  | .Gb => "GB"
  | .Um => "UM"
  | .Us => "US"
  | .Uy => "UY"
  | .Uz => "UZ"
  | .Vu => "VU"
  | .Ve => "VE"
  | .Vn => "VN"
  | .Vg => "VG"
  | .Vi => "VI"
  | .Wf => "WF"
  | .Eh => "EH"
  | .Ye => "YE"
  | .Zm => "ZM"
  | .Zw => "ZW"
  | .Ax => "AX"

/-- `ninth_get_region_helper` (`src/lib.rs`): first-match substring scan of the raw
locale environment string against two-letter region codes, in source order.
The source reads the environment itself; here the string is a parameter. -/
def ninth_get_region_helper (var_env : String) : Region :=
  if strContains var_env "TW" then Region.Tw
  else if strContains var_env "TJ" then Region.Tj
  else if strContains var_env "TZ" then Region.Tz
  else if strContains var_env "TH" then Region.Th
  else if strContains var_env "TL" then Region.Tl
  else if strContains var_env "TG" then Region.Tg
  else if strContains var_env "TK" then Region.Tk
  else if strContains var_env "TO" then Region.To
  else if strContains var_env "TT" then Region.Tt
  else if strContains var_env "TN" then Region.Tn
  else if strContains var_env "TR" then Region.Tr
  else if strContains var_env "TM" then Region.Tm
  else if strContains var_env "TC" then Region.Tc
  else if strContains var_env "TV" then Region.Tv
  else if strContains var_env "UG" then Region.Ug
  else if strContains var_env "UA" then Region.Ua
  else if strContains var_env "AE" then Region.Ae
  else if strContains var_env "GB" then Region.Gb
  else if strContains var_env "UM" then Region.Um
  else if strContains var_env "US" then Region.Us
  else if strContains var_env "UY" then Region.Uy
  else if strContains var_env "UZ" then Region.Uz
  else if strContains var_env "VU" then Region.Vu
  else if strContains var_env "VE" then Region.Ve
  else if strContains var_env "VN" then Region.Vn
  else if strContains var_env "VG" then Region.Vg
  else if strContains var_env "VI" then Region.Vi
  else if strContains var_env "WF" then Region.Wf
  else if strContains var_env "EH" then Region.Eh
  else if strContains var_env "YE" then Region.Ye
  else if strContains var_env "ZM" then Region.Zm
  else if strContains var_env "ZW" then Region.Zw
  else if strContains var_env "AX" then Region.Ax
  else Region.Any

/-- `eight_get_region_helper` (`src/lib.rs`): first-match substring scan of the raw
locale environment string against two-letter region codes, in source order.
The source reads the environment itself; here the string is a parameter. -/
def eight_get_region_helper (var_env : String) : Region :=
  if strContains var_env "SM" then Region.Sm
  else if strContains var_env "ST" then Region.St
  else if strContains var_env "SA" then Region.Sa
  else if strContains var_env "SN" then Region.Sn
  else if strContains var_env "RS" then Region.Rs
  else if strContains var_env "SC" then Region.Sc
  else if strContains var_env "SL" then Region.Sl
  else if strContains var_env "SG" then Region.Sg
  else if strContains var_env "SX" then Region.Sx
  else if strContains var_env "SK" then Region.Sk
  else if strContains var_env "SI" then Region.Si
  else if strContains var_env "SB" then Region.Sb
  else if strContains var_env "SO" then Region.So
  else if strContains var_env "ZA" then Region.Za
  else if strContains var_env "GS" then Region.Gs
  else if strContains var_env "SS" then Region.Ss
  else if strContains var_env "ES" then Region.Es
  else if strContains var_env "LK" then Region.Lk
  else if strContains var_env "SD" then Region.Sd
  else if strContains var_env "SR" then Region.Sr
  else if strContains var_env "SJ" then Region.Sj
  else if strContains var_env "SE" then Region.Se
  else if strContains var_env "CH" then Region.Ch
  else if strContains var_env "SY" then Region.Sy
  else ninth_get_region_helper var_env

/-- `seventh_get_region_helper` (`src/lib.rs`): first-match substring scan of the raw
locale environment string against two-letter region codes, in source order.
The source reads the environment itself; here the string is a parameter. -/
def seventh_get_region_helper (var_env : String) : Region :=
  if strContains var_env "PS" then Region.Ps
  else if strContains var_env "PA" then Region.Pa
  else if strContains var_env "PG" then Region.Pg
  else if strContains var_env "PY" then Region.Py
  else if strContains var_env "PE" then Region.Pe
  else if strContains var_env "PH" then Region.Ph
  else if strContains var_env "PN" then Region.Pn
  else if strContains var_env "PL" then Region.Pl
  else if strContains var_env "PT" then Region.Pt
  else if strContains var_env "PR" then Region.Pr
  else if strContains var_env "QA" then Region.Qa
  else if strContains var_env "MK" then Region.Mk
  else if strContains var_env "RO" then Region.Ro
  else if strContains var_env "RU" then Region.Ru
  else if strContains var_env "RW" then Region.Rw
  else if strContains var_env "RE" then Region.Re
  else if strContains var_env "BL" then Region.Bl
  else if strContains var_env "SH" then Region.Sh
  else if strContains var_env "KN" then Region.Kn
  else if strContains var_env "LC" then Region.Lc
  else if strContains var_env "MF" then Region.Mf
  else if strContains var_env "PM" then Region.Pm
  else if strContains var_env "VC" then Region.Vc
  else if strContains var_env "WS" then Region.Ws
  else eight_get_region_helper var_env

/-- `sixth_get_region_helper` (`src/lib.rs`): first-match substring scan of the raw
locale environment string against two-letter region codes, in source order.
The source reads the environment itself; here the string is a parameter. -/
def sixth_get_region_helper (var_env : String) : Region :=
  if strContains var_env "MD" then Region.Md
  else if strContains var_env "MC" then Region.Mc
  else if strContains var_env "MN" then Region.Mn
  else if strContains var_env "ME" then Region.Me
  else if strContains var_env "MS" then Region.Ms
  else if strContains var_env "MA" then Region.Ma
  else if strContains var_env "MZ" then Region.Mz
  else if strContains var_env "MM" then Region.Mm
  else if strContains var_env "NA" then Region.Na
  else if strContains var_env "NR" then Region.Nr
  else if strContains var_env "NP" then Region.Np
  else if strContains var_env "NL" then Region.Nl
  else if strContains var_env "NC" then Region.Nc
  else if strContains var_env "NZ" then Region.Nz
  else if strContains var_env "NI" then Region.Ni
  else if strContains var_env "NE" then Region.Ne
  else if strContains var_env "NG" then Region.Ng
  else if strContains var_env "NU" then Region.Nu
  else if strContains var_env "NF" then Region.Nf
  else if strContains var_env "MP" then Region.Mp
  else if strContains var_env "NO" then Region.No
  else if strContains var_env "OM" then Region.Om
  else if strContains var_env "PK" then Region.Pk
  else if strContains var_env "PW" then Region.Pw
  else seventh_get_region_helper var_env

/-- `fifth_get_region_helper` (`src/lib.rs`): first-match substring scan of the raw
locale environment string against two-letter region codes, in source order.
The source reads the environment itself; here the string is a parameter. -/
def fifth_get_region_helper (var_env : String) : Region :=
  if strContains var_env "KG" then Region.Kg
  else if strContains var_env "LA" then Region.La
  else if strContains var_env "LV" then Region.Lv
  else if strContains var_env "LB" then Region.Lb
  else if strContains var_env "LS" then Region.Ls
  else if strContains var_env "LR" then Region.Lr
  else if strContains var_env "LY" then Region.Ly
  else if strContains var_env "LI" then Region.Li
  else if strContains var_env "LT" then Region.Lt
  else if strContains var_env "LU" then Region.Lu
  else if strContains var_env "MO" then Region.Mo
  else if strContains var_env "MG" then Region.Mg
  else if strContains var_env "MW" then Region.Mw
  else if strContains var_env "MY" then Region.My
  else if strContains var_env "MV" then Region.Mv
  else if strContains var_env "ML" then Region.Ml
  else if strContains var_env "MT" then Region.Mt
  else if strContains var_env "MH" then Region.Mh
  else if strContains var_env "MQ" then Region.Mq
  else if strContains var_env "MR" then Region.Mr
  else if strContains var_env "MU" then Region.Mu
  else if strContains var_env "YT" then Region.Yt
  else if strContains var_env "MX" then Region.Mx
  else if strContains var_env "FM" then Region.Fm
  else sixth_get_region_helper var_env

/-- `forth_get_region_helper` (`src/lib.rs`): first-match substring scan of the raw
locale environment string against two-letter region codes, in source order.
The source reads the environment itself; here the string is a parameter. -/
def forth_get_region_helper (var_env : String) : Region :=
  if strContains var_env "HM" then Region.Hm
  else if strContains var_env "VA" then Region.Va
  else if strContains var_env "HN" then Region.Hn
  else if strContains var_env "HK" then Region.Hk
  else if strContains var_env "HU" then Region.Hu
  else if strContains var_env "IS" then Region.Is
  else if strContains var_env "IN" then Region.In
  else if strContains var_env "ID" then Region.Id
  else if strContains var_env "IR" then Region.Ir
  else if strContains var_env "IQ" then Region.Iq
  else if strContains var_env "IE" then Region.Ie
  else if strContains var_env "IM" then Region.Im
  else if strContains var_env "IL" then Region.Il
  else if strContains var_env "IT" then Region.It
  else if strContains var_env "JM" then Region.Jm
  else if strContains var_env "JP" then Region.Jp
  else if strContains var_env "JE" then Region.Je
  else if strContains var_env "JO" then Region.Jo
  else if strContains var_env "KZ" then Region.Kz
  else if strContains var_env "KE" then Region.Ke
  else if strContains var_env "KI" then Region.Ki
  else if strContains var_env "KP" then Region.Kp
  else if strContains var_env "KR" then Region.Kr
  else if strContains var_env "KW" then Region.Kw
  else fifth_get_region_helper var_env

/-- `third_get_region_helper` (`src/lib.rs`): first-match substring scan of the raw
locale environment string against two-letter region codes, in source order.
The source reads the environment itself; here the string is a parameter. -/
def third_get_region_helper (var_env : String) : Region :=
  if strContains var_env "FO" then Region.Fo
  else if strContains var_env "FJ" then Region.Fj
  else if strContains var_env "FI" then Region.Fi
  else if strContains var_env "FR" then Region.Fr
  else if strContains var_env "GF" then Region.Gf
  else if strContains var_env "PF" then Region.Pf
  else if strContains var_env "TF" then Region.Tf
  else if strContains var_env "GA" then Region.Ga
  else if strContains var_env "GM" then Region.Gm
  else if strContains var_env "GE" then Region.Ge
  else if strContains var_env "DE" then Region.De
  else if strContains var_env "GH" then Region.Gh
  else if strContains var_env "GI" then Region.Gi
  else if strContains var_env "GR" then Region.Gr
  else if strContains var_env "GL" then Region.Gl
  else if strContains var_env "GD" then Region.Gd
  else if strContains var_env "GP" then Region.Gp
  else if strContains var_env "GU" then Region.Gu
  else if strContains var_env "GT" then Region.Gt
  else if strContains var_env "GG" then Region.Gg
  else if strContains var_env "GN" then Region.Gn
  else if strContains var_env "GW" then Region.Gw
  else if strContains var_env "GY" then Region.Gy
  else if strContains var_env "HT" then Region.Ht
  else forth_get_region_helper var_env

/-- `second_get_region_helper` (`src/lib.rs`): first-match substring scan of the raw
locale environment string against two-letter region codes, in source order.
The source reads the environment itself; here the string is a parameter. -/
def second_get_region_helper (var_env : String) : Region :=
  if strContains var_env "KM" then Region.Km
  else if strContains var_env "CD" then Region.Cd
  else if strContains var_env "CG" then Region.Cg
  else if strContains var_env "CK" then Region.Ck
  else if strContains var_env "CR" then Region.Cr
  else if strContains var_env "HR" then Region.Hr
  else if strContains var_env "CU" then Region.Cu
  else if strContains var_env "CW" then Region.Cw
  else if strContains var_env "CY" then Region.Cy
  else if strContains var_env "CZ" then Region.Cz
  else if strContains var_env "CI" then Region.Ci
  else if strContains var_env "DK" then Region.Dk
  else if strContains var_env "DJ" then Region.Dj
  else if strContains var_env "DM" then Region.Dm
  else if strContains var_env "DO" then Region.Do
  else if strContains var_env "EC" then Region.Ec
  else if strContains var_env "EG" then Region.Eg
  else if strContains var_env "SV" then Region.Sv
  else if strContains var_env "GQ" then Region.Gq
  else if strContains var_env "ER" then Region.Er
  else if strContains var_env "EE" then Region.Ee
  else if strContains var_env "SZ" then Region.Sz
  else if strContains var_env "ET" then Region.Et
  else if strContains var_env "FK" then Region.Fk
  else third_get_region_helper var_env

/-- `get_region_helper` (`src/lib.rs`): first-match substring scan of the raw
locale environment string against two-letter region codes, in source order.
The source reads the environment itself; here the string is a parameter. -/
def get_region_helper (var_env : String) : Region :=
  if strContains var_env "AF" then Region.Af
  else if strContains var_env "AL" then Region.Al
  else if strContains var_env "DZ" then Region.Dz
  else if strContains var_env "AS" then Region.As
  else if strContains var_env "AD" then Region.Ad
  else if strContains var_env "AO" then Region.Ao
  else if strContains var_env "AI" then Region.Ai
  else if strContains var_env "AQ" then Region.Aq
  else if strContains var_env "AG" then Region.Ag
  else if strContains var_env "AR" then Region.Ar
  else if strContains var_env "AM" then Region.Am
  else if strContains var_env "AW" then Region.Aw
  else if strContains var_env "AU" then Region.Au
  else if strContains var_env "AT" then Region.At
  else if strContains var_env "AZ" then Region.Az
  else if strContains var_env "BS" then Region.Bs
  else if strContains var_env "BH" then Region.Bh
  else if strContains var_env "BD" then Region.Bd
  else if strContains var_env "BB" then Region.Bb
  else if strContains var_env "BY" then Region.By
  else if strContains var_env "BE" then Region.Be
  else if strContains var_env "BZ" then Region.Bz
  else if strContains var_env "BJ" then Region.Bj
  else if strContains var_env "BM" then Region.Bm
  else if strContains var_env "BT" then Region.Bt
  else if strContains var_env "BO" then Region.Bo
  else if strContains var_env "BQ" then Region.Bq
  else if strContains var_env "BA" then Region.Ba
  else if strContains var_env "BW" then Region.Bw
  else if strContains var_env "BV" then Region.Bv
  else if strContains var_env "BR" then Region.Br
  else if strContains var_env "IO" then Region.Io
  else if strContains var_env "BN" then Region.Bn
  else if strContains var_env "BG" then Region.Bg
  else if strContains var_env "BF" then Region.Bf
  else if strContains var_env "BI" then Region.Bi
  else if strContains var_env "CV" then Region.Cv
  else if strContains var_env "KH" then Region.Kh
  else if strContains var_env "CM" then Region.Cm
  else if strContains var_env "CA" then Region.Ca
  else if strContains var_env "KY" then Region.Ky
  else if strContains var_env "CF" then Region.Cf
  else if strContains var_env "TD" then Region.Td
  else if strContains var_env "CL" then Region.Cl
  else if strContains var_env "CN" then Region.Cn
  else if strContains var_env "CX" then Region.Cx
  else if strContains var_env "CC" then Region.Cc
  else if strContains var_env "CO" then Region.Cd
  else second_get_region_helper var_env

/-- The named (two-letter-code) `Region` variants, in enum order: the
domain of the round-trip property (everything except the `Any` and `Custom`
escape variants). -/
def regionTableVariants : List Region := [
  Region.Af,
  Region.Al,
  Region.Dz,
  Region.As,
  Region.Ad,
  Region.Ao,
  Region.Ai,
  Region.Aq,
  Region.Ag,
  Region.Ar,
  Region.Am,
  Region.Aw,
  Region.Au,
  Region.At,
  Region.Az,
  Region.Bs,
  Region.Bh,
  Region.Bd,
  Region.Bb,
  Region.By,
  Region.Be,
  Region.Bz,
  Region.Bj,
  Region.Bm,
  Region.Bt,
  Region.Bo,
  Region.Bq,
  Region.Ba,
  Region.Bw,
  Region.Bv,
  Region.Br,
  Region.Io,
  Region.Bn,
  Region.Bg,
  Region.Bf,
  Region.Bi,
  Region.Cv,
  Region.Kh,
  Region.Cm,
  Region.Ca,
  Region.Ky,
  Region.Cf,
  Region.Td,
  Region.Cl,
  Region.Cn,
  Region.Cx,
  Region.Cc,
  Region.Co,
  Region.Km,
  Region.Cd,
  Region.Cg,
  Region.Ck,
  Region.Cr,
  Region.Hr,
  Region.Cu,
  Region.Cw,
  Region.Cy,
  Region.Cz,
  Region.Ci,
  Region.Dk,
  Region.Dj,
  Region.Dm,
  Region.Do,
  Region.Ec,
  Region.Eg,
  Region.Sv,
  Region.Gq,
  Region.Er,
  Region.Ee,
  Region.Sz,
  Region.Et,
  Region.Fk,
  Region.Fo,
  Region.Fj,
  Region.Fi,
  Region.Fr,
  Region.Gf,
  Region.Pf,
  Region.Tf,
  Region.Ga,
  Region.Gm,
  Region.Ge,
  Region.De,
  Region.Gh,
  Region.Gi,
  Region.Gr,
  Region.Gl,
  Region.Gd,
  Region.Gp,
  Region.Gu,
  Region.Gt,
  Region.Gg,
  Region.Gn,
  Region.Gw,
  Region.Gy,
  Region.Ht,
  Region.Hm,
  Region.Va,
  Region.Hn,
  Region.Hk,
  Region.Hu,
  Region.Is,
  Region.In,
  Region.Id,
  Region.Ir,
  Region.Iq,
  Region.Ie,
  Region.Im,
  Region.Il,
  Region.It,
  Region.Jm,
  Region.Jp,
  Region.Je,
  Region.Jo,
  Region.Kz,
  Region.Ke,
  Region.Ki,
  Region.Kp,
  Region.Kr,
  Region.Kw,
  Region.Kg,
  Region.La,
  Region.Lv,
  Region.Lb,
  Region.Ls,
  Region.Lr,
  Region.Ly,
  Region.Li,
  Region.Lt,
  Region.Lu,
  Region.Mo,
  Region.Mg,
  Region.Mw,
  Region.My,
  Region.Mv,
  Region.Ml,
  Region.Mt,
  Region.Mh,
  Region.Mq,
  Region.Mr,
  Region.Mu,
  Region.Yt,
  Region.Mx,
  Region.Fm,
  Region.Md,
  Region.Mc,
  Region.Mn,
  Region.Me,
  Region.Ms,
  Region.Ma,
  Region.Mz,
  Region.Mm,
  Region.Na,
  Region.Nr,
  Region.Np,
  Region.Nl,
  Region.Nc,
  Region.Nz,
  Region.Ni,
  Region.Ne,
  Region.Ng,
  Region.Nu,
  Region.Nf,
  Region.Mp,
  Region.No,
  Region.Om,
  Region.Pk,
  Region.Pw,
  Region.Ps,
  Region.Pa,
  Region.Pg,
  Region.Py,
  Region.Pe,
  Region.Ph,
  Region.Pn,
  Region.Pl,
  Region.Pt,
  Region.Pr,
  Region.Qa,
  Region.Mk,
  Region.Ro,
  Region.Ru,
  Region.Rw,
  Region.Re,
  Region.Bl,
  Region.Sh,
  Region.Kn,
  Region.Lc,
  Region.Mf,
  Region.Pm,
  Region.Vc,
  Region.Ws,
  Region.Sm,
  Region.St,
  Region.Sa,
  Region.Sn,
  Region.Rs,
  Region.Sc,
  Region.Sl,
  Region.Sg,
  Region.Sx,
  Region.Sk,
  Region.Si,
  Region.Sb,
  Region.So,
  Region.Za,
  Region.Gs,
  Region.Ss,
  Region.Es,
  Region.Lk,
  Region.Sd,
  Region.Sr,
  Region.Sj,
  Region.Se,
  Region.Ch,
  Region.Sy,
  Region.Tw,
  Region.Tj,
  Region.Tz,
  Region.Th,
  Region.Tl,
  Region.Tg,
  Region.Tk,
  Region.To,
  Region.Tt,
  Region.Tn,
  Region.Tr,
  Region.Tm,
  Region.Tc,
  Region.Tv,
  Region.Ug,
  Region.Ua,
  Region.Ae,
  Region.Gb,
  Region.Um,
  Region.Us,
  Region.Uy,
  Region.Uz,
  Region.Vu,
  Region.Ve,
  Region.Vn,
  Region.Vg,
  Region.Vi,
  Region.Wf,
  Region.Eh,
  Region.Ye,
  Region.Zm,
  Region.Zw,
  Region.Ax
]

/-! ## `Language` (src/lib.rs lines 2259–2808)

One variant per ISO 639-1 code carrying a `Region` dialect, plus the opaque
escape variant `__` holding a raw code string (a `Box<String>` in the
source). -/


inductive Language
  | __ (code : String)
  | Ab (region : Region)
  | Aa (region : Region)
  | Af (region : Region)
  | Sq (region : Region)
  | Am (region : Region)
  | Ar (region : Region)
  | Hy (region : Region)
  | As (region : Region)
  | Ay (region : Region)
  | Az (region : Region)
  | Ba (region : Region)
  | Eu (region : Region)
  | Bn (region : Region)
  | Dz (region : Region)
  | Bh (region : Region)
  | Bi (region : Region)
  | Br (region : Region)
  | Bg (region : Region)
  | My (region : Region)
  | Be (region : Region)
  | Km (region : Region)
  | Ca (region : Region)
  | Zh (region : Region)
  | Co (region : Region)
  | Hr (region : Region)
  | Cs (region : Region)
  | Da (region : Region)
  | Nl (region : Region)
  | En (region : Region)
  | Eo (region : Region)
  | Et (region : Region)
  | Fo (region : Region)
  | Fj (region : Region)
  | Fi (region : Region)
  | Fr (region : Region)
  | Fy (region : Region)
  | Gd (region : Region)
  | Gl (region : Region)
  | Ka (region : Region)
  | De (region : Region)
  | El (region : Region)
  | Kl (region : Region)
  | Gn (region : Region)
  | Gu (region : Region)
  | Ha (region : Region)
  | Iw (region : Region)
  | Hi (region : Region)
  | Hu (region : Region)
  | Is (region : Region)
  | In (region : Region)
  | Ia (region : Region)
  | Ie (region : Region)
  | Ik (region : Region)
  | Ga (region : Region)
  | It (region : Region)
  | Ja (region : Region)
  | Jw (region : Region)
  | Kn (region : Region)
  | Ks (region : Region)
  | Kk (region : Region)
  | Rw (region : Region)
  | Ky (region : Region)
  | Rn (region : Region)
  | Ko (region : Region)
  | Ku (region : Region)
  | Lo (region : Region)
  | La (region : Region)
  | Lv (region : Region)
  | Ln (region : Region)
  | Lt (region : Region)
  | Mk (region : Region)
  | Mg (region : Region)
  | Ms (region : Region)
  | Ml (region : Region)
  | Mt (region : Region)
  | Mi (region : Region)
  | Mr (region : Region)
  | Mo (region : Region)
  | Mn (region : Region)
  | Na (region : Region)
  | Ne (region : Region)
  | No (region : Region)
  | Oc (region : Region)
  | Or (region : Region)
  | Om (region : Region)
  | Ps (region : Region)
  | Fa (region : Region)
  | Pl (region : Region)
  | Pt (region : Region)
  | Pa (region : Region)
  | Qu (region : Region)
  | Rm (region : Region)
  | Ro (region : Region)
  | Ru (region : Region)
  | Sm (region : Region)
  | Sg (region : Region)
  | Sa (region : Region)
  | Sr (region : Region)
  | Sh (region : Region)
  | St (region : Region)
  | Tn (region : Region)
  | Sn (region : Region)
  | Sd (region : Region)
  | Si (region : Region)
  | Ss (region : Region)
  | Sk (region : Region)
  | Sl (region : Region)
  | So (region : Region)
  | Es (region : Region)
  | Su (region : Region)
  | Sw (region : Region)
  | Sv (region : Region)
  | Tl (region : Region)
  | Tg (region : Region)
  | Ta (region : Region)
  | Tt (region : Region)
  | Te (region : Region)
  | Th (region : Region)
  | Bo (region : Region)
  | Ti (region : Region)
  | To (region : Region)
  | Ts (region : Region)
  | Tr (region : Region)
  | Tk (region : Region)
  | Tw (region : Region)
  | Uk (region : Region)
  | Ur (region : Region)
  | Uz (region : Region)
  | Vi (region : Region)
  | Vo (region : Region)
  | Cy (region : Region)
  | Wo (region : Region)
  | Xh (region : Region)
  | Ji (region : Region)
  | Yo (region : Region)
  | Zu (region : Region)

/-- `Language::region` (`src/lib.rs` lines 2810–2953): the escape variant
`__` has no structured region and returns `Region::Any`; every named variant
returns its carried region. -/
def Language.region : Language → Region
  | .__ _ => Region.Any
  | .Ab region => region
  | .Aa region => region
  | .Af region => region
  | .Sq region => region
  | .Am region => region
  | .Ar region => region
  | .Hy region => region
  | .As region => region
  | .Ay region => region
  | .Az region => region
  | .Ba region => region
  | .Eu region => region
  | .Bn region => region
  | .Dz region => region
  | .Bh region => region
  | .Bi region => region
  | .Br region => region
  | .Bg region => region
  | .My region => region
  | .Be region => region
  | .Km region => region
  | .Ca region => region
  | .Zh region => region
  | .Co region => region
  | .Hr region => region
  | .Cs region => region
  | .Da region => region
  | .Nl region => region
  | .En region => region
  | .Eo region => region
  | .Et region => region
  | .Fo region => region
  | .Fj region => region
  | .Fi region => region
  | .Fr region => region
  | .Fy region => region
  | .Gd region => region
  | .Gl region => region
  | .Ka region => region
  | .De region => region
  | .El region => region
  | .Kl region => region
  | .Gn region => region
  | .Gu region => region
  | .Ha region => region
  | .Iw region => region
  | .Hi region => region
  | .Hu region => region
  | .Is region => region
  | .In region => region
  | .Ia region => region
  | .Ie region => region
  | .Ik region => region
  | .Ga region => region
  | .It region => region
  | .Ja region => region
  | .Jw region => region
  | .Kn region => region
  | .Ks region => region
  | .Kk region => region
  | .Rw region => region
  | .Ky region => region
  | .Rn region => region
  | .Ko region => region
  | .Ku region => region
  | .Lo region => region
  | .La region => region
  | .Lv region => region
  | .Ln region => region
  | .Lt region => region
  | .Mk region => region
  | .Mg region => region
  | .Ms region => region
  | .Ml region => region
  | .Mt region => region
  | .Mi region => region
  | .Mr region => region
  | .Mo region => region
  | .Mn region => region
  | .Na region => region
  | .Ne region => region
  | .No region => region
  | .Oc region => region
  | .Or region => region
  | .Om region => region
  | .Ps region => region
  | .Fa region => region
  | .Pl region => region
  | .Pt region => region
  | .Pa region => region
  | .Qu region => region
  | .Rm region => region
  | .Ro region => region
  | .Ru region => region
  | .Sm region => region
  | .Sg region => region
  | .Sa region => region
  | .Sr region => region
  | .Sh region => region
  | .St region => region
  | .Tn region => region
  | .Sn region => region
  | .Sd region => region
  | .Si region => region
  | .Ss region => region
  | .Sk region => region
  | .Sl region => region
  | .So region => region
  | .Es region => region
  | .Su region => region
  | .Sw region => region
  | .Sv region => region
  | .Tl region => region
  | .Tg region => region
  | .Ta region => region
  | .Tt region => region
  | .Te region => region
  | .Th region => region
  | .Bo region => region
  | .Ti region => region
  | .To region => region
  | .Ts region => region
  | .Tr region => region
  | .Tk region => region
  | .Tw region => region
  | .Uk region => region
  | .Ur region => region
  | .Uz region => region
  | .Vi region => region
  | .Vo region => region
  | .Cy region => region
  | .Wo region => region
  | .Xh region => region
  | .Ji region => region
  | .Yo region => region
  | .Zu region => region

/-- `Display for Language` (`src/lib.rs` lines 2955–4330): the escape
variant writes its raw code string; a named variant writes its lowercase
code, and appends `_` plus the region rendering when the region is not
`Any`.  (The Slovenian arm writes `"Sl"` — a capitalization quirk kept from
the source.) -/
def languageDisplay : Language → String
  | .__ code => code
  | .Ab region => if region != Region.Any then "ab_" ++ regionDisplay region else "ab"
  | .Aa region => if region != Region.Any then "aa_" ++ regionDisplay region else "aa"
  | .Af region => if region != Region.Any then "af_" ++ regionDisplay region else "af"
  | .Sq region => if region != Region.Any then "sq_" ++ regionDisplay region else "sq"
  | .Am region => if region != Region.Any then "am_" ++ regionDisplay region else "am"
  | .Ar region => if region != Region.Any then "ar_" ++ regionDisplay region else "ar"
  | .Hy region => if region != Region.Any then "hy_" ++ regionDisplay region else "hy"
  | .As region => if region != Region.Any then "as_" ++ regionDisplay region else "as"
  | .Ay region => if region != Region.Any then "ay_" ++ regionDisplay region else "ay"
  | .Az region => if region != Region.Any then "az_" ++ regionDisplay region else "az"
  | .Ba region => if region != Region.Any then "ba_" ++ regionDisplay region else "ba"
  | .Eu region => if region != Region.Any then "eu_" ++ regionDisplay region else "eu"
  | .Bn region => if region != Region.Any then "bn_" ++ regionDisplay region else "bn"
  | .Dz region => if region != Region.Any then "dz_" ++ regionDisplay region else "dz"
  | .Bh region => if region != Region.Any then "bh_" ++ regionDisplay region else "bh"
  | .Bi region => if region != Region.Any then "bi_" ++ regionDisplay region else "bi"
  | .Br region => if region != Region.Any then "br_" ++ regionDisplay region else "br"
  | .Bg region => if region != Region.Any then "bg_" ++ regionDisplay region else "bg"
  | .My region => if region != Region.Any then "my_" ++ regionDisplay region else "my"
  | .Be region => if region != Region.Any then "be_" ++ regionDisplay region else "be"
  | .Km region => if region != Region.Any then "km_" ++ regionDisplay region else "km"
  | .Ca region => if region != Region.Any then "ca_" ++ regionDisplay region else "ca"
  | .Zh region => if region != Region.Any then "zh_" ++ regionDisplay region else "zh"
  | .Co region => if region != Region.Any then "co_" ++ regionDisplay region else "co"
  | .Hr region => if region != Region.Any then "hr_" ++ regionDisplay region else "hr"
  | .Cs region => if region != Region.Any then "cs_" ++ regionDisplay region else "cs"
  | .Da region => if region != Region.Any then "da_" ++ regionDisplay region else "da"
  | .Nl region => if region != Region.Any then "nl_" ++ regionDisplay region else "nl"
  | .En region => if region != Region.Any then "en_" ++ regionDisplay region else "en"
  | .Eo region => if region != Region.Any then "eo_" ++ regionDisplay region else "eo"
  | .Et region => if region != Region.Any then "et_" ++ regionDisplay region else "et"
  | .Fo region => if region != Region.Any then "fo_" ++ regionDisplay region else "fo"
  | .Fj region => if region != Region.Any then "fj_" ++ regionDisplay region else "fj"
  | .Fi region => if region != Region.Any then "fi_" ++ regionDisplay region else "fi"
  | .Fr region => if region != Region.Any then "fr_" ++ regionDisplay region else "fr"
  | .Fy region => if region != Region.Any then "fy_" ++ regionDisplay region else "fy"
  | .Gd region => if region != Region.Any then "gd_" ++ regionDisplay region else "gd"
  | .Gl region => if region != Region.Any then "gl_" ++ regionDisplay region else "gl"
  | .Ka region => if region != Region.Any then "ka_" ++ regionDisplay region else "ka"
  | .De region => if region != Region.Any then "de_" ++ regionDisplay region else "de"
  | .El region => if region != Region.Any then "el_" ++ regionDisplay region else "el"
  | .Kl region => if region != Region.Any then "kl_" ++ regionDisplay region else "kl"
  | .Gn region => if region != Region.Any then "gn_" ++ regionDisplay region else "gn"
  | .Gu region => if region != Region.Any then "gu_" ++ regionDisplay region else "gu"
  | .Ha region => if region != Region.Any then "ha_" ++ regionDisplay region else "ha"
  | .Iw region => if region != Region.Any then "iw_" ++ regionDisplay region else "iw"
  | .Hi region => if region != Region.Any then "hi_" ++ regionDisplay region else "hi"
  | .Hu region => if region != Region.Any then "hu_" ++ regionDisplay region else "hu"
  | .Is region => if region != Region.Any then "is_" ++ regionDisplay region else "is"
  | .In region => if region != Region.Any then "in_" ++ regionDisplay region else "in"
  | .Ia region => if region != Region.Any then "ia_" ++ regionDisplay region else "ia"
  | .Ie region => if region != Region.Any then "ie_" ++ regionDisplay region else "ie"
  | .Ik region => if region != Region.Any then "ik_" ++ regionDisplay region else "ik"
  | .Ga region => if region != Region.Any then "ga_" ++ regionDisplay region else "ga"
  | .It region => if region != Region.Any then "it_" ++ regionDisplay region else "it"
  | .Ja region => if region != Region.Any then "ja_" ++ regionDisplay region else "ja"
  | .Jw region => if region != Region.Any then "jw_" ++ regionDisplay region else "jw"
  | .Kn region => if region != Region.Any then "kn_" ++ regionDisplay region else "kn"
  | .Ks region => if region != Region.Any then "ks_" ++ regionDisplay region else "ks"
  | .Kk region => if region != Region.Any then "kk_" ++ regionDisplay region else "kk"
  | .Rw region => if region != Region.Any then "rw_" ++ regionDisplay region else "rw"
  | .Ky region => if region != Region.Any then "ky_" ++ regionDisplay region else "ky"
  | .Rn region => if region != Region.Any then "rn_" ++ regionDisplay region else "rn"
  | .Ko region => if region != Region.Any then "ko_" ++ regionDisplay region else "ko"
  | .Ku region => if region != Region.Any then "ku_" ++ regionDisplay region else "ku"
  | .Lo region => if region != Region.Any then "lo_" ++ regionDisplay region else "lo"
  | .La region => if region != Region.Any then "la_" ++ regionDisplay region else "la"
  | .Lv region => if region != Region.Any then "lv_" ++ regionDisplay region else "lv"
  | .Ln region => if region != Region.Any then "ln_" ++ regionDisplay region else "ln"
  | .Lt region => if region != Region.Any then "lt_" ++ regionDisplay region else "lt"
  | .Mk region => if region != Region.Any then "mk_" ++ regionDisplay region else "mk"
  | .Mg region => if region != Region.Any then "mg_" ++ regionDisplay region else "mg"
  | .Ms region => if region != Region.Any then "ms_" ++ regionDisplay region else "ms"
  | .Ml region => if region != Region.Any then "ml_" ++ regionDisplay region else "ml"
  | .Mt region => if region != Region.Any then "mt_" ++ regionDisplay region else "mt"
  | .Mi region => if region != Region.Any then "mi_" ++ regionDisplay region else "mi"
  | .Mr region => if region != Region.Any then "mr_" ++ regionDisplay region else "mr"
  | .Mo region => if region != Region.Any then "mo_" ++ regionDisplay region else "mo"
  | .Mn region => if region != Region.Any then "mn_" ++ regionDisplay region else "mn"
  | .Na region => if region != Region.Any then "na_" ++ regionDisplay region else "na"
  | .Ne region => if region != Region.Any then "ne_" ++ regionDisplay region else "ne"
  | .No region => if region != Region.Any then "no_" ++ regionDisplay region else "no"
  | .Oc region => if region != Region.Any then "oc_" ++ regionDisplay region else "oc"
  | .Or region => if region != Region.Any then "or_" ++ regionDisplay region else "or"
  | .Om region => if region != Region.Any then "om_" ++ regionDisplay region else "om"
  | .Ps region => if region != Region.Any then "ps_" ++ regionDisplay region else "ps"
  | .Fa region => if region != Region.Any then "fa_" ++ regionDisplay region else "fa"
  | .Pl region => if region != Region.Any then "pl_" ++ regionDisplay region else "pl"
  | .Pt region => if region != Region.Any then "pt_" ++ regionDisplay region else "pt"
  | .Pa region => if region != Region.Any then "pd_" ++ regionDisplay region else "pd"
  | .Qu region => if region != Region.Any then "qu_" ++ regionDisplay region else "qu"
  | .Rm region => if region != Region.Any then "rm_" ++ regionDisplay region else "rm"
  | .Ro region => if region != Region.Any then "ro_" ++ regionDisplay region else "ro"
  | .Ru region => if region != Region.Any then "ru_" ++ regionDisplay region else "ru"
  | .Sm region => if region != Region.Any then "sm_" ++ regionDisplay region else "sm"
  | .Sg region => if region != Region.Any then "sg_" ++ regionDisplay region else "sg"
  | .Sa region => if region != Region.Any then "sa_" ++ regionDisplay region else "sa"
  | .Sr region => if region != Region.Any then "sr_" ++ regionDisplay region else "sr"
  | .Sh region => if region != Region.Any then "sh_" ++ regionDisplay region else "sh"
  | .St region => if region != Region.Any then "st_" ++ regionDisplay region else "st"
  | .Tn region => if region != Region.Any then "tn_" ++ regionDisplay region else "tn"
  | .Sn region => if region != Region.Any then "sn_" ++ regionDisplay region else "sn"
  | .Sd region => if region != Region.Any then "sd_" ++ regionDisplay region else "sd"
  | .Si region => if region != Region.Any then "si_" ++ regionDisplay region else "si"
  | .Ss region => if region != Region.Any then "ss_" ++ regionDisplay region else "ss"
  | .Sk region => if region != Region.Any then "sk_" ++ regionDisplay region else "sk"
  | .Sl region => if region != Region.Any then "Sl_" ++ regionDisplay region else "Sl"
  | .So region => if region != Region.Any then "so_" ++ regionDisplay region else "so"
  | .Es region => if region != Region.Any then "es_" ++ regionDisplay region else "es"
  | .Su region => if region != Region.Any then "su_" ++ regionDisplay region else "su"
  | .Sw region => if region != Region.Any then "sw_" ++ regionDisplay region else "sw"
  | .Sv region => if region != Region.Any then "sv_" ++ regionDisplay region else "sv"
  | .Tl region => if region != Region.Any then "tl_" ++ regionDisplay region else "tl"
  | .Tg region => if region != Region.Any then "tg_" ++ regionDisplay region else "tg"
  | .Ta region => if region != Region.Any then "ta_" ++ regionDisplay region else "ta"
  | .Tt region => if region != Region.Any then "tt_" ++ regionDisplay region else "tt"
  | .Te region => if region != Region.Any then "te_" ++ regionDisplay region else "te"
  | .Th region => if region != Region.Any then "th_" ++ regionDisplay region else "th"
  | .Bo region => if region != Region.Any then "bo_" ++ regionDisplay region else "bo"
  | .Ti region => if region != Region.Any then "ti_" ++ regionDisplay region else "ti"
  | .To region => if region != Region.Any then "to_" ++ regionDisplay region else "to"
  | .Ts region => if region != Region.Any then "ts_" ++ regionDisplay region else "ts"
  | .Tr region => if region != Region.Any then "tr_" ++ regionDisplay region else "tr"
  | .Tk region => if region != Region.Any then "tk_" ++ regionDisplay region else "tk"
  | .Tw region => if region != Region.Any then "tw_" ++ regionDisplay region else "tw"
  | .Uk region => if region != Region.Any then "uk_" ++ regionDisplay region else "uk"
  | .Ur region => if region != Region.Any then "ur_" ++ regionDisplay region else "ur"
  | .Uz region => if region != Region.Any then "uz_" ++ regionDisplay region else "uz"
  | .Vi region => if region != Region.Any then "vi_" ++ regionDisplay region else "vi"
  | .Vo region => if region != Region.Any then "vo_" ++ regionDisplay region else "vo"
  | .Cy region => if region != Region.Any then "cy_" ++ regionDisplay region else "cy"
  | .Wo region => if region != Region.Any then "wo_" ++ regionDisplay region else "wo"
  | .Xh region => if region != Region.Any then "xh_" ++ regionDisplay region else "xh"
  | .Ji region => if region != Region.Any then "ji_" ++ regionDisplay region else "ji"
  | .Yo region => if region != Region.Any then "yo_" ++ regionDisplay region else "yo"
  | .Zu region => if region != Region.Any then "zu_" ++ regionDisplay region else "zu"

/-! ## `Platform`, `Arch`, `Width` (src/lib.rs lines 4751–4935) -/

/-- The `Platform` enum of `src/lib.rs` (line 4751). -/
inductive Platform
  | Linux
  | Bsd
  | Windows
  | MacOS
  | Illumos
  | Ios
  | Android
  | Nintendo
  | Xbox
  | PlayStation
  | Fuchsia
  | Redox
  | Unknown (s : String)
deriving DecidableEq

/-- `Display for Platform` (`src/lib.rs` line 4769): the `Unknown` variant is
prefixed with `"Unknown: "` before its payload. -/
def platformDisplay : Platform → String
  | .Linux => "Linux"
  | .Bsd => "BSD"
  | .Windows => "Windows"
  | .MacOS => "Mac OS"
  | .Illumos => "Illumos"
  | .Ios => "iOS"
  | .Android => "Android"
  | .Nintendo => "Nintendo"
  | .Xbox => "XBox"
  | .PlayStation => "PlayStation"
  | .Fuchsia => "Fuchsia"
  | .Redox => "Redox"
  | .Unknown a => "Unknown: " ++ a

/-- The `Arch` enum of `src/lib.rs` (line 4796): closed set of known CPU
architectures plus the open `Unknown` escape. -/
inductive Arch
  | ArmV5
  | ArmV6
  | ArmV7
  | Arm64
  | I386
  | I586
  | I686
  | X64
  | Mips
  | MipsEl
  | Mips64
  | Mips64El
  | PowerPc
  | PowerPc64
  | PowerPc64Le
  | Riscv32
  | Riscv64
  | S390x
  | Sparc
  | Sparc64
  | Wasm32
  | Wasm64
  | Unknown (s : String)
deriving DecidableEq

/-- The `Width` enum of `src/lib.rs` (line 4882). -/
inductive Width
  | Bits32
  | Bits64
deriving DecidableEq

/-- `Arch::width` (`src/lib.rs` lines 4898–4933): 32-bit architectures map to
`Bits32`, 64-bit ones to `Bits64`, and the open `Unknown` variant is the only
error case (`ErrorKind::InvalidData` with the source's message). -/
def Arch.width : Arch → Except IoError Width
  | .ArmV5 | .ArmV6 | .ArmV7 | .I386 | .I586 | .I686 | .Mips | .MipsEl
  | .PowerPc | .Riscv32 | .Sparc | .Wasm32 => .ok Width.Bits32
  | .Arm64 | .Mips64 | .Mips64El | .PowerPc64 | .PowerPc64Le | .Riscv64
  | .S390x | .Sparc64 | .Wasm64 | .X64 => .ok Width.Bits64
  | .Unknown unknown_arch => .error
      ⟨ErrorKind.invalidData,
       "Tried getting width of unknown arch (" ++ unknown_arch ++ ")"⟩

/-- True exactly on the open `Arch::Unknown` escape variant. -/
def isUnknownArch : Arch → Bool
  | .Unknown _ => true
  | _ => false

/-! ## Locale parsing (src/api.rs lines 126–148)

`langs()` obtains one raw, `;`-delimited locale string from the platform
provider; the raw string is a parameter here. -/

/-- The per-token body of the `filter_map` in `src/api.rs` `langs()`: the
token is truncated at the first `.`, `_`/`-` are replaced by `/`, the POSIX
`"C"` token is dropped, and everything else is wrapped in the `Language::__`
escape variant. -/
def apiLangToken (lang : String) : Option Language :=
  let lang := replaceSep ((split_terminator_first lang).getD "")
  if lang = "C" then none
  else some (Language.__ lang)

/-- `langs()` from `src/api.rs` as a function of the provider's raw locale
string: split on `;`, then filter-map each token through `apiLangToken`. -/
def apiLangs (raw : String) : List Language :=
  (splitChar ';' raw).filterMap apiLangToken

/-! ## The convenience `langs()` of src/lib.rs (lines 5057–5070) -/

/-- `langs()` from `src/lib.rs`: maps `lang()`'s platform-provided strings
(a parameter here) to `Ok(Language::__(string))` — every item is `Ok` by
construction. -/
def libLangs (platformLangStrings : List String) : List (Except IoError Language) :=
  platformLangStrings.map fun string => Except.ok (Language.__ string)

/-! ## Hostname (src/fallible.rs lines 79–86, src/lib.rs lines 5002–5005) -/

/-- `DEFAULT_HOSTNAME` from `src/lib.rs` line 72. -/
def DEFAULT_HOSTNAME : String := "LocalHost"

/-- `DEFAULT_USERNAME` from `src/lib.rs` line 71. -/
def DEFAULT_USERNAME : String := "Unknown"

/-- `fallible::hostname()` (`src/fallible.rs` lines 79–86) as a function of
the platform provider's result: on success the string is ASCII-lowercased in
place (`make_ascii_lowercase`); errors pass through. -/
def fallible_hostname (platformHostname : Except IoError String) :
    Except IoError String :=
  match platformHostname with
  | .error e => .error e
  | .ok hostname => .ok (ascii_lowercase hostname)

/-- The convenience `hostname()` (`src/lib.rs` lines 5002–5005):
`fallible::hostname().unwrap_or_else(|_| DEFAULT_HOSTNAME.to_lowercase())`. -/
def whoami_hostname (platformHostname : Except IoError String) : String :=
  match fallible_hostname platformHostname with
  | .ok hostname => hostname
  | .error _ => ascii_lowercase DEFAULT_HOSTNAME

/-! ## Distro (src/unix.rs lines 278–312, src/lib.rs lines 5022–5025) -/

/-- The `for i in distro.split('\n')` loop of `src/unix.rs` `distro()`:
`j = i.split('=')`; a `PRETTY_NAME` line returns its (quote-trimmed) value
immediately; a `NAME` line records it as fallback and continues; the `?` on
the value `j.next()?` makes a key-only line return `None` for the whole
function; after the loop the recorded fallback (or `None`) is returned. -/
def distroLines (fallback : Option String) : List String → Option String
  | [] => fallback
  | i :: rest =>
    match splitChar '=' i with
    | [] => none
    | key :: vals =>
      if key = "PRETTY_NAME" then
        match vals.head? with
        | none => none
        | some v => some (trim_matches '"' v)
      else if key = "NAME" then
        match vals.head? with
        | none => none
        | some v => distroLines (some (trim_matches '"' v)) rest
      else distroLines fallback rest

/-- `distro()` from `src/unix.rs` (non-macOS, lines 283–312) as a function of
the `/etc/os-release` read result (`none` = the file is unreadable).  The
source calls `.expect("Couldn't read file /etc/os-release")` on the read, so
an unreadable file is a panic, not an error return. -/
def unix_distro (osRelease : Option String) : PanicOr (Option String) :=
  match osRelease with
  | none => .panicked "Couldn't read file /etc/os-release"
  | some program => .returned (distroLines none (splitChar '\n' program))

/-- The convenience `distro()` (`src/lib.rs` lines 5022–5025) as a function
of the fallible layer's result:
`fallible::distro().unwrap_or_else(|_| format!("Unknown {}", platform()))`. -/
def whoami_distro (fallibleDistro : Except IoError String) (p : Platform) :
    String :=
  match fallibleDistro with
  | .ok s => s
  | .error _ => "Unknown " ++ platformDisplay p

/-! ## Username / real name (src/unix.rs lines 96–187)

The passwd fields `pw_gecos` and `pw_name` (already decoded from C strings;
a null pointer decodes to `""`) are parameters. -/

/-- `getpwuid(real)` from `src/unix.rs` (lines 96–127): with `real = true`,
an empty GECOS field is `Err(pw_name)` — the signal to fall back — and a
non-empty one is `Ok(gecos)`; with `real = false` it is always
`Ok(pw_name)`. -/
def getpwuid (real : Bool) (pw_gecos pw_name : String) :
    Except String String :=
  if real then
    if pw_gecos.isEmpty then .error pw_name
    else .ok pw_gecos
  else .ok pw_name

/-- The character loop of `fancy_fallback` (`src/unix.rs` lines 138–164):
`.`/`-`/`_` become spaces and re-arm capitalization; any other character is
uppercased when capitalization is armed.  Rust `char::to_uppercase` is
modelled by `Char.toUpper` (they agree on ASCII; the multi-character Unicode
uppercasings are not modelled). -/
def fancyChars (cap : Bool) : List Char → List Char
  | [] => []
  | c :: rest =>
    if c = '.' ∨ c = '-' ∨ c = '_' then ' ' :: fancyChars true rest
    else if cap then c.toUpper :: fancyChars false rest
    else c :: fancyChars false rest

/-- `fancy_fallback` (`src/unix.rs` lines 138–164): fancify the contained
string (its `Ok`/`Err` cases only distinguish `&str` from `String`; both are
fancified), starting with capitalization armed. -/
def fancy_fallback (s : String) : String :=
  ⟨fancyChars true s.data⟩

/-- `fancy_fallback_os` (`src/unix.rs` lines 166–178): a successful (real
name) lookup passes through unchanged; the fallback (username) is
fancified. -/
def fancy_fallback_os : Except String String → String
  | .ok success => success
  | .error fallback => fancy_fallback fallback

/-- `realname_os()` from `src/unix.rs` (line 184):
`fancy_fallback_os(getpwuid(true))`. -/
def realname_os (pw_gecos pw_name : String) : String :=
  fancy_fallback_os (getpwuid true pw_gecos pw_name)

/-- `username_os()` from `src/unix.rs` (line 133): `getpwuid(false).unwrap()`
— the unwrap never fails because `getpwuid(false)` is always `Ok`. -/
def username_os (pw_gecos pw_name : String) : String :=
  match getpwuid false pw_gecos pw_name with
  | .ok name => name
  | .error name => name

/-- True on `Except.ok`, false on `Except.error` (Rust `Result::is_ok`). -/
def exceptIsOk : Except IoError Width → Bool
  | .ok _ => true
  | .error _ => false

/-! ## Auxiliary lemmas -/

/-- ASCII-lowercasing a character never yields an ASCII uppercase letter. -/
theorem toLower_notUpper (c : Char) : (Char.toLower c).isUpper = false := by
  simp only [Char.toLower]
  split
  · next h =>
    have hval : (Char.toNat c + 32).isValidChar := Or.inl (by omega)
    have hn : (Char.ofNat (Char.toNat c + 32)).toNat = Char.toNat c + 32 := by
      rw [Char.ofNat, dif_pos hval]; rfl
    simp only [Char.isUpper, Bool.and_eq_false_iff]
    right
    rw [decide_eq_false_iff_not]
    intro hle
    rw [UInt32.le_def, BitVec.le_def] at hle
    have h90 : ((90 : UInt32)).toBitVec.toNat = 90 := rfl
    rw [h90] at hle
    have hv : (Char.ofNat (Char.toNat c + 32)).val.toBitVec.toNat
        = Char.toNat c + 32 := hn
    omega
  · next h =>
    simp only [Char.isUpper, Bool.and_eq_false_iff]
    have hval : Char.toNat c = c.val.toBitVec.toNat := rfl
    rcases Nat.lt_or_ge (Char.toNat c) 65 with hlt | hge
    · left
      rw [decide_eq_false_iff_not]
      intro hge2
      rw [ge_iff_le, UInt32.le_def, BitVec.le_def] at hge2
      have h65 : ((65 : UInt32)).toBitVec.toNat = 65 := rfl
      rw [h65] at hge2
      omega
    · right
      rw [decide_eq_false_iff_not]
      intro hle
      rw [UInt32.le_def, BitVec.le_def] at hle
      have h90 : ((90 : UInt32)).toBitVec.toNat = 90 := rfl
      rw [h90] at hle
      exact h ⟨hge, by omega⟩

/-- The fancifying loop maps each input character to exactly one output
character, so it preserves length. -/
theorem fancyChars_length (cap : Bool) (l : List Char) :
    (fancyChars cap l).length = l.length := by
  induction l generalizing cap with
  | nil => rfl
  | cons c rest ih =>
    simp only [fancyChars]
    split
    · simpa using ih true
    · split <;> simpa using ih false

/-- Fancifying a nonempty string yields a nonempty string. -/
theorem fancy_fallback_nonempty (s : String) (h : s ≠ "") :
    fancy_fallback s ≠ "" := by
  intro h2
  apply h
  have hd : fancyChars true s.data = ([] : List Char) := congrArg String.data h2
  have hlen := fancyChars_length true s.data
  rw [hd] at hlen
  have : s.data = [] := List.eq_nil_of_length_eq_zero hlen.symm
  exact String.ext this

/-- Looking up any key in an association list whose values all have length
two, with a length-two default, yields a length-two string. -/
theorem lookupTwo :
    ∀ (l : List (Nat × String)), (∀ p ∈ l, p.2.length = 2) →
      ∀ n : Nat, (((l.lookup n).getD "**")).length = 2
  | [], _, _ => rfl
  | (k, v) :: rest, h, n => by
    rw [List.lookup_cons]
    split
    · simpa using h (k, v) (List.mem_cons_self _ _)
    · exact lookupTwo rest (fun p hp => h p (List.mem_cons_of_mem _ hp)) n

/-! ## Claim theorems -/

/-- Claim C1, counterexample: the fallible-layer hostname is NOT
case-preserving — on the platform-provided hostname `"MyHost"` it returns
`"myhost"`, not `"MyHost"` (the `make_ascii_lowercase` call sits in
`src/fallible.rs`, below the convenience boundary). -/
theorem c1_counterexample :
    fallible_hostname (.ok "MyHost") = .ok "myhost" ∧
    fallible_hostname (.ok "MyHost") ≠ .ok "MyHost" := by
  refine ⟨rfl, ?_⟩
  intro h
  have h2 : ("myhost" : String) = "MyHost" := Except.ok.inj h
  exact absurd h2 (by decide)

/-- Claim C1, amended: the convenience-layer `hostname()` is entirely
(ASCII-)lowercase, and the fallible layer itself ASCII-lowercases the
platform string — case normalization happens at the fallible layer, not
only at the public convenience boundary. -/
theorem c1_hostname_lowercase :
    (∀ platformHostname : Except IoError String,
      noAsciiUppercase (whoami_hostname platformHostname) = true) ∧
    (∀ s : String, fallible_hostname (.ok s) = .ok (ascii_lowercase s)) := by
  constructor
  · intro p
    cases p with
    | error e => rfl
    | ok h =>
      show ((h.data.map Char.toLower).all fun c => !c.isUpper) = true
      rw [List.all_map]
      refine List.all_eq_true.mpr fun c _ => ?_
      simp [Function.comp, toLower_notUpper]
  · intro s
    rfl

/-- Claim C2: when `/etc/os-release` is entirely unreadable, the Unix
provider `distro()` panics through `.expect` — the call chain aborts
instead of reaching the convenience layer, whose `"Unknown " + platform()`
fallback (second conjunct) is produced only from an `Err` it never sees. -/
theorem c2_unreadable_os_release :
    unix_distro none = .panicked "Couldn\x27t read file /etc/os-release" ∧
    (∀ (e : IoError) (p : Platform),
      whoami_distro (.error e) p = "Unknown " ++ platformDisplay p) :=
  ⟨rfl, fun _ _ => rfl⟩

/-- Claim C3, counterexample: with an empty GECOS field and login name
`"alice"`, `realname_os` returns the fancified `"Alice"`, which differs
from `username_os`'s `"alice"` — the fallback is not exactly the
username. -/
theorem c3_counterexample :
    realname_os "" "alice" = "Alice" ∧
    username_os "" "alice" = "alice" ∧
    realname_os "" "alice" ≠ username_os "" "alice" := by
  refine ⟨rfl, rfl, ?_⟩
  intro h
  have h2 : ("Alice" : String) = "alice" := h
  exact absurd h2 (by decide)

/-- Claim C3, amended: whenever the provider reports an empty GECOS field,
`realname_os` returns the `fancy_fallback`-fancified form of
`username_os`'s value (first letters capitalized, `.`/`-`/`_` replaced by
spaces), and this fallback is nonempty whenever the username is
nonempty. -/
theorem c3_realname_fallback (pw_gecos pw_name : String)
    (hg : pw_gecos = "") :
    realname_os pw_gecos pw_name
      = fancy_fallback (username_os pw_gecos pw_name) ∧
    (pw_name ≠ "" → realname_os pw_gecos pw_name ≠ "") := by
  subst hg
  constructor
  · rfl
  · intro hn
    exact fancy_fallback_nonempty pw_name hn

/-- Claim C3, witness: the amended statement at GECOS `""` and login name
`"alice"`. -/
theorem c3_realname_fallback_witness :
    (realname_os "" "alice" = fancy_fallback (username_os "" "alice")) ∧
    realname_os "" "alice" ≠ "" :=
  ⟨(c3_realname_fallback "" "alice" rfl).1,
   (c3_realname_fallback "" "alice" rfl).2 (by decide)⟩

/-- Claim C4, counterexample: parsing the empty raw locale string does NOT
yield an empty sequence. -/
theorem c4_counterexample : apiLangs "" ≠ [] := by
  intro h
  exact List.cons_ne_nil _ _ h

/-- Claim C4, amended: parsing the empty raw locale string yields exactly
one entry, the opaque escape `Language::__` holding the empty string
(splitting `""` on `;` yields the single token `""`, which survives the
`"C"` filter). -/
theorem c4_empty_locale : apiLangs "" = [Language.__ ""] := rfl

/-- Claim C5: rendering each named `Region` variant and re-parsing it
through the `get_region_helper` chain is the identity for every variant
except `Co` (Colombia), whose rendered code `"CO"` is parsed to `Cd` by the
mismatched `contains("CO") => Region::Cd` branch — so the round-trip fails
exactly at `Region::Co`. -/
theorem c5_region_roundtrip :
    (regionTableVariants.map fun v => get_region_helper (regionDisplay v))
      = (regionTableVariants.map fun v =>
          match v with
          | Region.Co => Region.Cd
          | w => w) ∧
    Region.Cd ≠ Region.Co :=
  ⟨rfl, fun h => Region.noConfusion h⟩

/-- Claim C6: parsing `"en_US.UTF-8;fr_FR.UTF-8;C"` yields exactly the two
entries `en/US` and `fr/FR` in order, and in any input a token that
truncates (at the first `.`) to the literal `"C"` contributes no entry. -/
theorem c6_locale_parse :
    apiLangs "en_US.UTF-8;fr_FR.UTF-8;C"
      = [Language.__ "en/US", Language.__ "fr/FR"] ∧
    (∀ token : String, (split_terminator_first token).getD "" = "C" →
      apiLangToken token = none) := by
  refine ⟨rfl, ?_⟩
  intro token h
  unfold apiLangToken
  rw [h]
  rfl

/-- Claim C6, witness: the concrete parse together with the token
`"C.UTF-8"`, which truncates to `"C"` and is filtered out. -/
theorem c6_locale_parse_witness :
    apiLangs "en_US.UTF-8;fr_FR.UTF-8;C"
      = [Language.__ "en/US", Language.__ "fr/FR"] ∧
    apiLangToken "C.UTF-8" = none :=
  ⟨c6_locale_parse.1, c6_locale_parse.2 "C.UTF-8" rfl⟩

/-- Claim C7, counterexample: for the raw locale string `"de_DE.UTF-8"` the
parser yields the escape entry `Language::__("de/DE")`, whose `region()` is
`Region::Any` — not the structured Germany code `Region::De`. -/
theorem c7_counterexample :
    apiLangs "de_DE.UTF-8" = [Language.__ "de/DE"] ∧
    (Language.__ "de/DE").region = Region.Any ∧
    Region.Any ≠ Region.De :=
  ⟨rfl, rfl, fun h => Region.noConfusion h⟩

/-- Claim C7, amended: for `"de_DE.UTF-8"` the parser yields exactly one
entry, displayed `"de/DE"`; being the opaque escape variant, its `region()`
is `Region::Any`, the no-region value. -/
theorem c7_langs_de :
    apiLangs "de_DE.UTF-8" = [Language.__ "de/DE"] ∧
    languageDisplay (Language.__ "de/DE") = "de/DE" ∧
    (Language.__ "de/DE").region = Region.Any :=
  ⟨rfl, rfl, rfl⟩

/-- Claim C8: `Arch::width` succeeds exactly on the non-`Unknown`
architectures, partitioning them into 32-bit and 64-bit results; in
particular `X64` yields 64 bits and `Unknown("foo")` yields the
`InvalidData` error. -/
theorem c8_arch_width :
    (∀ a : Arch, exceptIsOk (Arch.width a) = !(isUnknownArch a)) ∧
    Arch.width Arch.X64 = .ok Width.Bits64 ∧
    Arch.width (Arch.Unknown "foo")
      = .error ⟨ErrorKind.invalidData,
          "Tried getting width of unknown arch (foo)"⟩ ∧
    (∀ a : Arch, isUnknownArch a = false →
      Arch.width a = .ok Width.Bits32 ∨ Arch.width a = .ok Width.Bits64) := by
  refine ⟨?_, rfl, rfl, ?_⟩
  · intro a
    cases a <;> rfl
  · intro a h
    cases a <;> first
      | (left; rfl)
      | (right; rfl)
      | exact absurd h (by simp [isUnknownArch])

/-- Claim C8, witness: the partition statement applied to the 32-bit
architecture `ArmV7`. -/
theorem c8_arch_width_witness :
    isUnknownArch Arch.ArmV7 = false ∧
    (Arch.width Arch.ArmV7 = .ok Width.Bits32 ∨
      Arch.width Arch.ArmV7 = .ok Width.Bits64) :=
  ⟨rfl, c8_arch_width.2.2.2 Arch.ArmV7 rfl⟩

/-- Claim C9: rendering a `Region` is total — every value renders as a
two-character string (so no panic is possible) — and a `Custom` numeric
code absent from the canonical table renders as the sentinel `"**"`. -/
theorem c9_region_display :
    (∀ v : Region, (regionDisplay v).length = 2) ∧
    (∀ code : Nat, customRegionTable.lookup code = none →
      regionDisplay (Region.Custom code) = "**") := by
  constructor
  · intro v
    cases v
    case Custom code => exact lookupTwo customRegionTable (by decide) code
    all_goals rfl
  · intro code h
    show (customRegionTable.lookup code).getD "**" = "**"
    rw [h]
    rfl

/-- Claim C9, witness: the numeric code 1 is not in the canonical table and
renders as the sentinel. -/
theorem c9_region_display_witness :
    customRegionTable.lookup 1 = none ∧
    regionDisplay (Region.Custom 1) = "**" :=
  ⟨by decide, c9_region_display.2 1 (by decide)⟩

/-- Claim C10: every item yielded by the convenience-layer `langs()` is
`Ok` — each platform-provided raw string is wrapped as
`Ok(Language::__(string))`, so no `Err` item is ever produced. -/
theorem c10_langs_all_ok :
    ∀ (strings : List String) (item : Except IoError Language),
      item ∈ libLangs strings → ∃ l : Language, item = .ok l := by
  intro strings item h
  rcases List.mem_map.mp h with ⟨s, _, rfl⟩
  exact ⟨Language.__ s, rfl⟩

/-- Claim C10, witness: the single item produced from the raw string list
`["en"]` is `Ok`. -/
theorem c10_langs_all_ok_witness :
    ∃ l : Language,
      (Except.ok (Language.__ "en") : Except IoError Language) = .ok l :=
  c10_langs_all_ok ["en"] (.ok (Language.__ "en"))
    (List.mem_singleton.mpr rfl)

end Whoami
